import Mathlib

/-!
Verification of the sunsniff_solark field registry and frame decoder.

The registry, constants and field constructors below are translated from
src/src/fields.rs.  The frame validator and decoder are not part of the
available source; they are modelled from the specification (each such
definition carries a doc comment saying so).
-/

namespace Sunsniff

/-- Closed classification of physical quantity kinds (enum FieldType in
src/src/fields.rs). -/
inductive FieldType where
  | Charge
  | Current
  | Energy
  | Frequency
  | Power
  | StateOfCharge
  | Temperature
  | Voltage
deriving DecidableEq

/-- One measurement descriptor (struct Field in src/src/fields.rs).  The
Rust f64 scale and bias are embedded as exact rationals; every value
appearing in the source (1.0, 0.1, 0.01, -100.0, 0.0) is exactly
representable. -/
structure Field where
  field_type : FieldType
  offset : Nat
  group : String
  name : String
  id : String
  scale : ℚ
  bias : ℚ
  unit : String
deriving DecidableEq

/-- Field::power from src/src/fields.rs. -/
def Field.power (offset : Nat) (group : String) (id : String) : Field :=
  ⟨FieldType.Power, offset, group, "Power", id, 1.0, 0.0, "W"⟩

/-- Field::voltage from src/src/fields.rs. -/
def Field.voltage (offset : Nat) (group : String) (id : String) : Field :=
  ⟨FieldType.Voltage, offset, group, "Voltage", id, 0.1, 0.0, "V"⟩

/-- Field::current from src/src/fields.rs. -/
def Field.current (offset : Nat) (group : String) (id : String) : Field :=
  ⟨FieldType.Current, offset, group, "Current", id, 0.01, 0.0, "A"⟩

/-- Field::temperature_name from src/src/fields.rs. -/
def Field.temperature_name (offset : Nat) (group : String) (name : String)
    (id : String) : Field :=
  ⟨FieldType.Temperature, offset, group, name, id, 0.1, -100.0, "°C"⟩

/-- Field::temperature from src/src/fields.rs. -/
def Field.temperature (offset : Nat) (group : String) (id : String) : Field :=
  Field.temperature_name offset group "Temperature" id

/-- Field::frequency from src/src/fields.rs. -/
def Field.frequency (offset : Nat) (group : String) (id : String) : Field :=
  ⟨FieldType.Frequency, offset, group, "Frequency", id, 0.01, 0.0, "Hz"⟩

/-- Field::energy from src/src/fields.rs. -/
def Field.energy (offset : Nat) (group : String) (name : String)
    (id : String) : Field :=
  ⟨FieldType.Energy, offset, group, name, id, 0.1, 0.0, "kWh"⟩

/-- Field::charge from src/src/fields.rs. -/
def Field.charge (offset : Nat) (group : String) (name : String)
    (id : String) : Field :=
  ⟨FieldType.Charge, offset, group, name, id, 1.0, 0.0, "Ah"⟩

/-- Field::state_of_charge from src/src/fields.rs. -/
def Field.state_of_charge (offset : Nat) (group : String) (id : String) : Field :=
  ⟨FieldType.StateOfCharge, offset, group, "SOC", id, 1.0, 0.0, "%"⟩

/-- MAGIC_LENGTH from src/src/fields.rs: the exact frame length in bytes. -/
def MAGIC_LENGTH : Nat := 292

/-- MAGIC_HEADER from src/src/fields.rs: the first byte of every packet. -/
def MAGIC_HEADER : Nat := 0xa5

/-- SERIAL_RANGE from src/src/fields.rs: the half-open byte range 11..21
holding the serial number, embedded as a (start, stop) pair. -/
def SERIAL_RANGE : Nat × Nat := (11, 21)

/-- DATETIME_OFFSET from src/src/fields.rs: where the timestamp begins. -/
def DATETIME_OFFSET : Nat := 37

/-- FIELDS from src/src/fields.rs: the ordered field registry. -/
def FIELDS : List Field := [
  Field.energy 70 "Battery" "Total charge" "battery_charge_total",
  Field.energy 74 "Battery" "Total discharge" "battery_discharge_total",
  Field.energy 82 "Grid" "Total import" "grid_import_total",
  Field.energy 88 "Grid" "Total export" "grid_export_total",
  Field.frequency 84 "Grid" "grid_frequency",
  Field.energy 96 "Load" "Total consumption" "load_consumption_total",
  Field.temperature_name 106 "Inverter" "DC Temperature" "inverter_temperature_dc",
  Field.temperature_name 108 "Inverter" "AC Temperature" "inverter_temperature_ac",
  Field.energy 118 "PV" "Total production" "pv_production_total",
  Field.charge 140 "Battery" "Capacity" "battery_capacity",
  Field.voltage 176 "Grid" "grid_voltage",
  Field.voltage 184 "Load" "load_voltage",
  Field.power 216 "Grid" "grid_power",
  Field.power 228 "Load" "load_power",
  Field.temperature 240 "Battery" "battery_temperature",
  Field.state_of_charge 244 "Battery" "battery_soc",
  Field.power 248 "PV" "pv_power",
  Field.power 256 "Battery" "battery_power",
  Field.current 258 "Battery" "battery_current",
  Field.frequency 260 "Load" "load_frequency"]

/-- The error taxonomy of section 7 of the spec. -/
inductive FrameError where
  | ShortFrame
  | BadMagic
  | InvalidSerial
  | InvalidTimestamp
  | FieldOutOfRange
deriving DecidableEq

/-- One decoded measurement: the field metadata, the raw integer read from
the frame, and the physical value raw * scale + bias. -/
structure Measurement where
  field : Field
  raw : Nat
  physical : ℚ
deriving DecidableEq

/-- The decoder output: serial string, timestamp value and the ordered
measurements. -/
structure DecodedFrame where
  serial : String
  timestamp : Nat
  measurements : List Measurement
deriving DecidableEq

/-- Modelled from the spec: validate(buffer) (section 4.3), which is not in
the available source.  Fails with ShortFrame when the length is not
MAGIC_LENGTH, with BadMagic when byte 0 is not MAGIC_HEADER, and otherwise
succeeds.  A buffer is a list of byte values. -/
def validate (buffer : List Nat) : Except FrameError Unit :=
  if buffer.length ≠ MAGIC_LENGTH then Except.error FrameError.ShortFrame
  else if buffer.getD 0 0 ≠ MAGIC_HEADER then Except.error FrameError.BadMagic
  else Except.ok ()

/-- The bytes of SERIAL_RANGE, i.e. buffer[11..21). -/
def serialBytes (buffer : List Nat) : List Nat :=
  (buffer.drop SERIAL_RANGE.1).take (SERIAL_RANGE.2 - SERIAL_RANGE.1)

/-- Modelled from the spec: a byte of printable text (the spec says the
serial bytes are interpreted as printable text, without fixing the
encoding; printable ASCII is the model). -/
def printableByte (b : Nat) : Bool := 32 ≤ b && b ≤ 126

/-- Modelled from the spec: serial extraction (section 4.4 step 1), which is
not in the available source.  Reads bytes SERIAL_RANGE as printable text and
fails with InvalidSerial when some byte is not printable text. -/
def extractSerial (buffer : List Nat) : Except FrameError String :=
  if (serialBytes buffer).all printableByte then
    Except.ok (String.mk ((serialBytes buffer).map Char.ofNat))
  else Except.error FrameError.InvalidSerial

/-- Modelled from the spec: the raw integer read at a given offset with the
decoder-wide width w, little-endian (the spec leaves width and endianness
open; the theorems quantify over w). -/
def readRaw (buffer : List Nat) : Nat → Nat → Nat
  | _, 0 => 0
  | offset, w + 1 => buffer.getD offset 0 + 256 * readRaw buffer (offset + 1) w

/-- The measurement produced for one field: the raw integer at its offset
and the physical value raw * scale + bias. -/
def mkMeasurement (buffer : List Nat) (w : Nat) (f : Field) : Measurement :=
  ⟨f, readRaw buffer f.offset w, (readRaw buffer f.offset w : ℚ) * f.scale + f.bias⟩

/-- Modelled from the spec: decoding of one field (section 4.4 steps 3 and
4), failing with FieldOutOfRange when offset plus width would read past
MAGIC_LENGTH. -/
def decodeField (buffer : List Nat) (w : Nat) (f : Field) : Except FrameError Measurement :=
  if f.offset + w ≤ MAGIC_LENGTH then Except.ok (mkMeasurement buffer w f)
  else Except.error FrameError.FieldOutOfRange

/-- Modelled from the spec: decoding of a list of fields in order, stopping
at the first error. -/
def decodeFields (buffer : List Nat) (w : Nat) : List Field → Except FrameError (List Measurement)
  | [] => Except.ok []
  | f :: rest =>
    match decodeField buffer w f with
    | Except.error e => Except.error e
    | Except.ok m =>
      match decodeFields buffer w rest with
      | Except.error e => Except.error e
      | Except.ok ms => Except.ok (m :: ms)

/-- Modelled from the spec: decode(buffer) (section 4.4), which is not in
the available source.  Validates defensively, extracts the serial and the
timestamp, then walks the registry in order.  The timestamp encoding is an
open question of the spec (section 9); the model records the byte at
DATETIME_OFFSET, so InvalidTimestamp is never produced. -/
def decode (w : Nat) (buffer : List Nat) : Except FrameError DecodedFrame :=
  match validate buffer with
  | Except.error e => Except.error e
  | Except.ok _ =>
    match extractSerial buffer with
    | Except.error e => Except.error e
    | Except.ok serial =>
      match decodeFields buffer w FIELDS with
      | Except.error e => Except.error e
      | Except.ok ms => Except.ok ⟨serial, buffer.getD DATETIME_OFFSET 0, ms⟩

/-- The field table of section 6 of the spec, written from the spec words
for comparison with the registry: offset, quantity kind, group, unit,
scale, bias, row for row. -/
def specTable : List (Nat × FieldType × String × String × ℚ × ℚ) := [
  (70, FieldType.Energy, "Battery", "kWh", 0.1, 0.0),
  (74, FieldType.Energy, "Battery", "kWh", 0.1, 0.0),
  (82, FieldType.Energy, "Grid", "kWh", 0.1, 0.0),
  (88, FieldType.Energy, "Grid", "kWh", 0.1, 0.0),
  (84, FieldType.Frequency, "Grid", "Hz", 0.01, 0.0),
  (96, FieldType.Energy, "Load", "kWh", 0.1, 0.0),
  (106, FieldType.Temperature, "Inverter", "°C", 0.1, -100.0),
  (108, FieldType.Temperature, "Inverter", "°C", 0.1, -100.0),
  (118, FieldType.Energy, "PV", "kWh", 0.1, 0.0),
  (140, FieldType.Charge, "Battery", "Ah", 1.0, 0.0),
  (176, FieldType.Voltage, "Grid", "V", 0.1, 0.0),
  (184, FieldType.Voltage, "Load", "V", 0.1, 0.0),
  (216, FieldType.Power, "Grid", "W", 1.0, 0.0),
  (228, FieldType.Power, "Load", "W", 1.0, 0.0),
  (240, FieldType.Temperature, "Battery", "°C", 0.1, -100.0),
  (244, FieldType.StateOfCharge, "Battery", "%", 1.0, 0.0),
  (248, FieldType.Power, "PV", "W", 1.0, 0.0),
  (256, FieldType.Power, "Battery", "W", 1.0, 0.0),
  (258, FieldType.Current, "Battery", "A", 0.01, 0.0),
  (260, FieldType.Frequency, "Load", "Hz", 0.01, 0.0)]

/-- Claim C1: the field registry is an ordered sequence of exactly 20 Field
values whose order and per-entry offset, quantity kind, group, unit, scale
and bias match the table of section 6 of the spec row for row. -/
theorem registry_matches_spec_table :
    FIELDS.length = 20 ∧
    FIELDS.map (fun f => (f.offset, f.field_type, f.group, f.unit, f.scale, f.bias))
      = specTable := by
  exact ⟨rfl, rfl⟩

/-- Claim C4: the frame-layout constants are exactly frame length 292,
first byte 0xA5, serial number at byte range [11, 21) and timestamp at
byte offset 37. -/
theorem frame_layout_constants :
    MAGIC_LENGTH = 292 ∧ MAGIC_HEADER = 0xa5 ∧ SERIAL_RANGE = (11, 21) ∧
    DATETIME_OFFSET = 37 := by
  exact ⟨rfl, rfl, rfl, rfl⟩

/-- Claim C5: in the registry as constructed, the id string of every Field
is unique across all 20 entries, and every offset lies below MAGIC_LENGTH. -/
theorem registry_ids_unique_offsets_in_frame :
    (FIELDS.map Field.id).Nodup ∧
    FIELDS.all (fun f => decide (f.offset < MAGIC_LENGTH)) = true := by
  decide

/-- Claim C10: the 20 byte offsets of the registry are pairwise distinct,
and indeed they are the following list, in which offset 84 appears after
offset 88 (the offsets are not in ascending order). -/
theorem registry_offsets_distinct :
    (FIELDS.map Field.offset).Nodup ∧
    FIELDS.map Field.offset =
      [70, 74, 82, 88, 84, 96, 106, 108, 118, 140, 176, 184, 216, 228, 240,
       244, 248, 256, 258, 260] := by
  decide

/-- The (scale, bias, unit) triple fixed by the canonical constructor of
each FieldType, read off from the constructors themselves. -/
def canonSBU : FieldType → ℚ × ℚ × String
  | FieldType.Charge =>
    ((Field.charge 0 "" "" "").scale, (Field.charge 0 "" "" "").bias,
     (Field.charge 0 "" "" "").unit)
  | FieldType.Current =>
    ((Field.current 0 "" "").scale, (Field.current 0 "" "").bias,
     (Field.current 0 "" "").unit)
  | FieldType.Energy =>
    ((Field.energy 0 "" "" "").scale, (Field.energy 0 "" "" "").bias,
     (Field.energy 0 "" "" "").unit)
  | FieldType.Frequency =>
    ((Field.frequency 0 "" "").scale, (Field.frequency 0 "" "").bias,
     (Field.frequency 0 "" "").unit)
  | FieldType.Power =>
    ((Field.power 0 "" "").scale, (Field.power 0 "" "").bias,
     (Field.power 0 "" "").unit)
  | FieldType.StateOfCharge =>
    ((Field.state_of_charge 0 "" "").scale, (Field.state_of_charge 0 "" "").bias,
     (Field.state_of_charge 0 "" "").unit)
  | FieldType.Temperature =>
    ((Field.temperature_name 0 "" "" "").scale, (Field.temperature_name 0 "" "" "").bias,
     (Field.temperature_name 0 "" "" "").unit)
  | FieldType.Voltage =>
    ((Field.voltage 0 "" "").scale, (Field.voltage 0 "" "").bias,
     (Field.voltage 0 "" "").unit)

/-- Claim C6: for each FieldType, scale, bias and unit are fixed by that
type's canonical constructor and identical for every field of that type in
the registry; in particular every voltage field has scale 0.1 and unit V,
and every temperature field has scale 0.1, bias -100.0 and unit °C. -/
theorem constructor_fixes_scale_bias_unit :
    (∀ f ∈ FIELDS, (f.scale, f.bias, f.unit) = canonSBU f.field_type) ∧
    (∀ (o : Nat) (g i : String),
        (Field.voltage o g i).scale = 0.1 ∧ (Field.voltage o g i).unit = "V") ∧
    (∀ (o : Nat) (g n i : String),
        (Field.temperature_name o g n i).scale = 0.1 ∧
        (Field.temperature_name o g n i).bias = -100.0 ∧
        (Field.temperature_name o g n i).unit = "°C") ∧
    (∀ f ∈ FIELDS, f.field_type = FieldType.Voltage →
        f.scale = 0.1 ∧ f.unit = "V") ∧
    (∀ f ∈ FIELDS, f.field_type = FieldType.Temperature →
        f.scale = 0.1 ∧ f.bias = -100.0 ∧ f.unit = "°C") := by
  refine ⟨?_, fun o g i => ⟨rfl, rfl⟩, fun o g n i => ⟨rfl, rfl, rfl⟩, ?_, ?_⟩
  · intro f hf
    fin_cases hf <;> rfl
  · intro f hf
    fin_cases hf <;> intro h <;>
      first
        | exact ⟨rfl, rfl⟩
        | exact absurd h (by decide)
  · intro f hf
    fin_cases hf <;> intro h <;>
      first
        | exact ⟨rfl, rfl, rfl⟩
        | exact absurd h (by decide)

/-- Witness for claim C6 at the grid voltage registry entry. -/
theorem constructor_fixes_scale_bias_unit_witness :
    (Field.voltage 176 "Grid" "grid_voltage").scale = 0.1 ∧
    (Field.voltage 176 "Grid" "grid_voltage").unit = "V" :=
  constructor_fixes_scale_bias_unit.2.2.2.1 (Field.voltage 176 "Grid" "grid_voltage")
    (by simp [FIELDS]) rfl

/-- Claim C3: validate returns ShortFrame for every buffer whose length is
not MAGIC_LENGTH, BadMagic for every 292-byte buffer whose byte 0 is not
MAGIC_HEADER, and succeeds on every 292-byte buffer with byte 0 = 0xA5. -/
theorem validate_spec :
    (∀ buffer : List Nat, buffer.length ≠ MAGIC_LENGTH →
        validate buffer = Except.error FrameError.ShortFrame) ∧
    (∀ buffer : List Nat, buffer.length = MAGIC_LENGTH →
        buffer.getD 0 0 ≠ MAGIC_HEADER →
        validate buffer = Except.error FrameError.BadMagic) ∧
    (∀ buffer : List Nat, buffer.length = MAGIC_LENGTH →
        buffer.getD 0 0 = MAGIC_HEADER →
        validate buffer = Except.ok ()) := by
  refine ⟨?_, ?_, ?_⟩
  · intro b h
    unfold validate
    rw [if_pos h]
  · intro b h1 h2
    unfold validate
    rw [if_neg (fun hc => hc h1), if_pos h2]
  · intro b h1 h2
    unfold validate
    rw [if_neg (fun hc => hc h1), if_neg (fun hc => hc h2)]

/-- Witness for claim C3: the three validate outcomes at concrete buffers. -/
theorem validate_spec_witness :
    validate [] = Except.error FrameError.ShortFrame ∧
    validate (0 :: List.replicate 291 0) = Except.error FrameError.BadMagic ∧
    validate (165 :: List.replicate 291 0) = Except.ok () :=
  ⟨validate_spec.1 [] (by decide),
   validate_spec.2.1 _ (by rw [List.length_cons, List.length_replicate]; decide)
     (by decide),
   validate_spec.2.2 _ (by rw [List.length_cons, List.length_replicate]; decide)
     (by decide)⟩

theorem offset_le_260 (f : Field) (hf : f ∈ FIELDS) : f.offset ≤ 260 := by
  fin_cases hf <;> decide

theorem fields_in_range (w : Nat) (hw : w ≤ 32) :
    ∀ f ∈ FIELDS, f.offset + w ≤ MAGIC_LENGTH := by
  intro f hf
  have h := offset_le_260 f hf
  unfold MAGIC_LENGTH
  omega

theorem decodeFields_ok (buffer : List Nat) (w : Nat) :
    ∀ l : List Field, (∀ f ∈ l, f.offset + w ≤ MAGIC_LENGTH) →
      decodeFields buffer w l = Except.ok (l.map (mkMeasurement buffer w)) := by
  intro l
  induction l with
  | nil => intro _; rfl
  | cons f rest ih =>
    intro h
    have hf : f.offset + w ≤ MAGIC_LENGTH := h f (List.mem_cons_self f rest)
    have hrest := ih (fun g hg => h g (List.mem_cons_of_mem f hg))
    unfold decodeFields decodeField
    rw [if_pos hf, hrest]
    rfl

theorem validate_ok (buffer : List Nat) (hlen : buffer.length = MAGIC_LENGTH)
    (hmagic : buffer.getD 0 0 = MAGIC_HEADER) : validate buffer = Except.ok () := by
  unfold validate
  rw [if_neg (fun hc => hc hlen), if_neg (fun hc => hc hmagic)]

theorem decode_eq_ok (buffer : List Nat) (w : Nat)
    (hlen : buffer.length = MAGIC_LENGTH) (hmagic : buffer.getD 0 0 = MAGIC_HEADER)
    (hserial : (serialBytes buffer).all printableByte = true) (hw : w ≤ 32) :
    decode w buffer =
      Except.ok ⟨String.mk ((serialBytes buffer).map Char.ofNat),
        buffer.getD DATETIME_OFFSET 0, FIELDS.map (mkMeasurement buffer w)⟩ := by
  have hv := validate_ok buffer hlen hmagic
  have hs : extractSerial buffer =
      Except.ok (String.mk ((serialBytes buffer).map Char.ofNat)) := by
    unfold extractSerial
    rw [if_pos hserial]
  have hfl := decodeFields_ok buffer w FIELDS (fields_in_range w hw)
  unfold decode
  rw [hv, hs, hfl]

/-- Claim C2: for every Field F of the registry and every representable raw
integer r, decoding a buffer with r encoded at F.offset yields physical
equal to r * F.scale + F.bias; in particular for a temperature field raw
1000 yields physical 0 and raw 1500 yields physical 50. -/
theorem decode_physical_value :
    (∀ f ∈ FIELDS, ∀ (buffer : List Nat) (w r : Nat),
        buffer.length = MAGIC_LENGTH → buffer.getD 0 0 = MAGIC_HEADER →
        (serialBytes buffer).all printableByte = true → w ≤ 32 →
        readRaw buffer f.offset w = r →
        ∃ d, decode w buffer = Except.ok d ∧
          Measurement.mk f r ((r : ℚ) * f.scale + f.bias) ∈ d.measurements) ∧
    (∀ f ∈ FIELDS, f.field_type = FieldType.Temperature →
        (1000 : ℚ) * f.scale + f.bias = 0 ∧
        (1500 : ℚ) * f.scale + f.bias = 50) := by
  constructor
  · intro f hf buffer w r hlen hmagic hser hw henc
    refine ⟨_, decode_eq_ok buffer w hlen hmagic hser hw, ?_⟩
    subst henc
    exact List.mem_map_of_mem (mkMeasurement buffer w) hf
  · intro f hf
    fin_cases hf <;> intro h <;>
      first
        | exact absurd h (by decide)
        | constructor <;>
            norm_num [Field.temperature_name, Field.temperature]

/-- Witness for claim C2: a concrete frame whose bytes 70 and 71 encode the
raw value 8224 for the total battery charge field. -/
theorem decode_physical_value_witness :
    ∃ d, decode 2 (165 :: List.replicate 291 32) = Except.ok d ∧
      Measurement.mk (Field.energy 70 "Battery" "Total charge" "battery_charge_total")
        8224
        ((8224 : ℚ) *
            (Field.energy 70 "Battery" "Total charge" "battery_charge_total").scale +
          (Field.energy 70 "Battery" "Total charge" "battery_charge_total").bias)
        ∈ d.measurements :=
  decode_physical_value.1 _ (by simp [FIELDS]) _ 2 8224
    (by rw [List.length_cons, List.length_replicate]; decide)
    (by decide) (by decide) (by decide) (by decide)

/-- Counterexample to claim C7 as stated: a buffer of correct length and
magic whose serial bytes are all zero makes decode fail with InvalidSerial,
so decode does not return 20 measurements for every buffer of correct
length and magic regardless of the other bytes. -/
theorem decode_garbage_counterexample :
    (165 :: List.replicate 291 0).length = MAGIC_LENGTH ∧
    (165 :: List.replicate 291 0).getD 0 0 = MAGIC_HEADER ∧
    decode 2 (165 :: List.replicate 291 0) = Except.error FrameError.InvalidSerial := by
  refine ⟨by rw [List.length_cons, List.length_replicate]; decide, by decide, ?_⟩
  have hv := validate_ok (165 :: List.replicate 291 0)
    (by rw [List.length_cons, List.length_replicate]; decide) (by decide)
  have hs : extractSerial (165 :: List.replicate 291 0) =
      Except.error FrameError.InvalidSerial := by
    unfold extractSerial
    rw [if_neg (by decide)]
  unfold decode
  rw [hv, hs]

/-- Claim C7 as amended: for every buffer of correct length and magic whose
serial bytes are printable text, and any registry-wide raw width w up to 32,
decode succeeds with exactly 20 measurements whose order equals registry
order, with no reordering or deduplication. -/
theorem decode_twenty_measurements (buffer : List Nat) (w : Nat)
    (hlen : buffer.length = MAGIC_LENGTH) (hmagic : buffer.getD 0 0 = MAGIC_HEADER)
    (hserial : (serialBytes buffer).all printableByte = true) (hw : w ≤ 32) :
    ∃ d, decode w buffer = Except.ok d ∧ d.measurements.length = 20 ∧
      d.measurements.map Measurement.field = FIELDS := by
  refine ⟨_, decode_eq_ok buffer w hlen hmagic hserial hw, ?_, ?_⟩
  · rw [show (DecodedFrame.mk (String.mk ((serialBytes buffer).map Char.ofNat))
        (buffer.getD DATETIME_OFFSET 0)
        (FIELDS.map (mkMeasurement buffer w))).measurements
      = FIELDS.map (mkMeasurement buffer w) from rfl]
    rw [List.length_map]
    rfl
  · rw [show (DecodedFrame.mk (String.mk ((serialBytes buffer).map Char.ofNat))
        (buffer.getD DATETIME_OFFSET 0)
        (FIELDS.map (mkMeasurement buffer w))).measurements
      = FIELDS.map (mkMeasurement buffer w) from rfl]
    rw [List.map_map]
    exact List.map_id FIELDS

/-- Witness for the amended claim C7 at a concrete all-printable frame. -/
theorem decode_twenty_measurements_witness :
    ∃ d, decode 2 (165 :: List.replicate 291 32) = Except.ok d ∧
      d.measurements.length = 20 ∧
      d.measurements.map Measurement.field = FIELDS :=
  decode_twenty_measurements _ 2
    (by rw [List.length_cons, List.length_replicate]; decide)
    (by decide) (by decide) (by decide)

/-- Claim C8: decode extracts the serial from bytes [11, 21) interpreted as
printable text: a valid frame whose serial bytes are ASCII ABCDEFGHIJ
decodes with serial ABCDEFGHIJ, and decode fails with InvalidSerial exactly
when those bytes are not valid text. -/
theorem serial_extraction_spec (buffer : List Nat) (w : Nat)
    (hlen : buffer.length = MAGIC_LENGTH) (hmagic : buffer.getD 0 0 = MAGIC_HEADER)
    (hw : w ≤ 32) :
    (serialBytes buffer = [65, 66, 67, 68, 69, 70, 71, 72, 73, 74] →
        ∃ d, decode w buffer = Except.ok d ∧ d.serial = "ABCDEFGHIJ") ∧
    (decode w buffer = Except.error FrameError.InvalidSerial ↔
        (serialBytes buffer).all printableByte = false) := by
  constructor
  · intro hser
    have hall : (serialBytes buffer).all printableByte = true := by
      rw [hser]
      decide
    refine ⟨_, decode_eq_ok buffer w hlen hmagic hall hw, ?_⟩
    show String.mk ((serialBytes buffer).map Char.ofNat) = "ABCDEFGHIJ"
    rw [hser]
    decide
  · constructor
    · intro hdec
      cases hb : (serialBytes buffer).all printableByte
      · rfl
      · rw [decode_eq_ok buffer w hlen hmagic hb hw] at hdec
        exact Except.noConfusion hdec
    · intro hfalse
      have hv := validate_ok buffer hlen hmagic
      have hs : extractSerial buffer = Except.error FrameError.InvalidSerial := by
        unfold extractSerial
        rw [if_neg (by rw [hfalse]; exact Bool.false_ne_true)]
      unfold decode
      rw [hv, hs]

/-- Witness for claim C8: a frame whose serial bytes are ASCII ABCDEFGHIJ. -/
theorem serial_extraction_spec_witness :
    ∃ d, decode 2
        (165 :: (List.replicate 10 0 ++
          ([65, 66, 67, 68, 69, 70, 71, 72, 73, 74] ++ List.replicate 271 0)))
        = Except.ok d ∧ d.serial = "ABCDEFGHIJ" :=
  (serial_extraction_spec _ 2
    (by rw [List.length_cons, List.length_append, List.length_append,
          List.length_replicate, List.length_replicate]; decide)
    (by decide) (by decide)).1 (by decide)

/-- Claim C9: for every Field in the registry, offset plus the decoder's
raw-value width (any width up to 4 bytes) does not exceed MAGIC_LENGTH, so
the FieldOutOfRange branch of decode is unreachable for the current
registry. -/
theorem field_out_of_range_unreachable (w : Nat) (hw : w ≤ 4) :
    (∀ f ∈ FIELDS, f.offset + w ≤ MAGIC_LENGTH) ∧
    (∀ buffer : List Nat, decode w buffer ≠ Except.error FrameError.FieldOutOfRange) := by
  have hw32 : w ≤ 32 := Nat.le_trans hw (by decide)
  refine ⟨fields_in_range w hw32, ?_⟩
  intro buffer hcontra
  by_cases hlen : buffer.length = MAGIC_LENGTH
  · by_cases hmagic : buffer.getD 0 0 = MAGIC_HEADER
    · cases hb : (serialBytes buffer).all printableByte
      · have hv := validate_ok buffer hlen hmagic
        have hs : extractSerial buffer = Except.error FrameError.InvalidSerial := by
          unfold extractSerial
          rw [if_neg (by rw [hb]; exact Bool.false_ne_true)]
        unfold decode at hcontra
        rw [hv, hs] at hcontra
        exact FrameError.noConfusion (Except.error.inj hcontra)
      · rw [decode_eq_ok buffer w hlen hmagic hb hw32] at hcontra
        exact Except.noConfusion hcontra
    · have hv : validate buffer = Except.error FrameError.BadMagic := by
        unfold validate
        rw [if_neg (fun hc => hc hlen), if_pos hmagic]
      unfold decode at hcontra
      rw [hv] at hcontra
      exact FrameError.noConfusion (Except.error.inj hcontra)
  · have hv : validate buffer = Except.error FrameError.ShortFrame := by
      unfold validate
      rw [if_pos hlen]
    unfold decode at hcontra
    rw [hv] at hcontra
    exact FrameError.noConfusion (Except.error.inj hcontra)

/-- Witness for claim C9 at width 2 and an arbitrary concrete buffer. -/
theorem field_out_of_range_unreachable_witness :
    decode 2 [] ≠ Except.error FrameError.FieldOutOfRange :=
  (field_out_of_range_unreachable 2 (by decide)).2 []

end Sunsniff
